import Mathlib

/-
Shallow embedding of the two handler modules of the media-upload backend
(src/api/thumbnails.ts and src/api/videos.ts).

Each HTTP handler is modelled as a pure function from an environment (the
request parameters together with the responses of the collaborators it
consults: auth, database, form data, disk, subprocesses, object store) to
an `Except` result plus a trace of observable side-effect events, in the
exact order the source performs them.  JavaScript numbers holding byte
sizes and stream dimensions are modelled as `Nat` (they are nonnegative
integers well below 2^53 in every reachable execution, so double-precision
arithmetic on them is exact; see `getVideoAspectRatio` for the one floor
computation).  String building by template literals is modelled by `++`.
-/

deriving instance DecidableEq for Except

/-- Video record of the database collaborator (db/videos.ts): identifier,
owning user, and the two mutable URL fields, nullable until set. -/
structure Video where
  id : String
  userID : String
  thumbnailURL : Option String
  videoURL : Option String
  deriving Repr, DecidableEq

/-- A client-submitted file from multipart form data: declared size,
declared MIME type, raw bytes. -/
structure UploadedFile where
  size : Nat
  mediaType : String
  data : List Nat
  deriving Repr, DecidableEq

/-- Entry of the in-memory `videoThumbnails` map in thumbnails.ts. -/
structure Thumbnail where
  data : List Nat
  mediaType : String
  deriving Repr, DecidableEq

/-- The part of ApiConfig the two handler files read. -/
structure ApiConfig where
  port : String
  jwtSecret : String
  assetsRoot : String
  s3CfDistribution : String
  deriving Repr, DecidableEq

/-- Process-lifetime mutable state of thumbnails.ts: the module-level
`videoThumbnails : Map<string, Thumbnail>`. -/
structure ServerState where
  videoThumbnails : String → Option Thumbnail

/-- Errors thrown by the handlers, by HTTP class: BadRequestError (400),
auth failure (401), UserForbiddenError (403), NotFoundError (404), and a
plain thrown Error from a subprocess or I/O failure (500). -/
inductive HandlerError where
  | badRequest (msg : String)
  | authError
  | forbidden (msg : String)
  | notFound (msg : String)
  | internal (msg : String)
  deriving Repr, DecidableEq

/-- Observable side effects of a handler run, in program order.
`localWriteStarted` is emitted when a `Bun.write` is initiated;
`localWriteCompleted` only when the handler awaits that write and it
succeeds (the thumbnail handler never awaits its write, so its trace never
contains a completion).  `s3WriteStarted` and `s3WriteCompleted` bracket
the awaited remote object-store write. -/
inductive Event where
  | authResolve
  | formRead
  | dbLookup (id : String)
  | localWriteStarted (filePath : String)
  | localWriteCompleted (filePath : String)
  | probeRun (filePath : String)
  | transcodeRun (filePath : String)
  | s3WriteStarted (key : String)
  | s3WriteCompleted (key : String)
  | recordUpdated (v : Video)
  | fileDeleted (filePath : String)
  deriving Repr, DecidableEq

/-- Characters before the first slash of a character list. -/
def takeUntilSlash : List Char → List Char
  | [] => []
  | c :: cs => if c = '/' then [] else c :: takeUntilSlash cs

/-- Characters after the first slash, or `none` when there is no slash. -/
def dropThroughSlash : List Char → Option (List Char)
  | [] => none
  | c :: cs => if c = '/' then some cs else dropThroughSlash cs

/-- JavaScript `mediaType.split("/")[1]` as interpolated into a template
literal: the second slash-separated chunk, or the string "undefined" when
there is none (interpolating the undefined value prints "undefined"). -/
def jsSplitSecond (s : String) : String :=
  match dropThroughSlash s.data with
  | some rest => String.mk (takeUntilSlash rest)
  | none => "undefined"

/-- Node `path.join` on the two-segment calls the handlers make. -/
def pathJoin (a b : String) : String := a ++ "/" ++ b

namespace Thumbnails

/-- thumbnails.ts: `const MAX_UPLOAD_SIZE = 10 << 20` (10 MiB). -/
def MAX_UPLOAD_SIZE : Nat := 10 * 2 ^ 20

/-- Environment of one `handlerUploadThumbnail` request: route parameter,
the resolved outcome of getBearerToken + validateJWT (`none` models the
thrown auth error), the form field "thumbnail" when it is a File, the
database lookup function, the generated `randomBytes(32).toString("base64url")`
name, and the eventual outcome of the fire-and-forget `Bun.write` (the
source does not await it, so this flag never influences control flow). -/
structure UploadEnv where
  cfg : ApiConfig
  videoId : Option String
  auth : Option String
  formFile : Option UploadedFile
  db : String → Option Video
  randomName : String
  diskWriteOk : Bool

/-- handlerUploadThumbnail (thumbnails.ts, lines 43-102), step for step:
videoId presence check, auth, form read, file presence, size ceiling,
media-type whitelist, db lookup, NotFound, ownership, then the un-awaited
disk write, URL assignment and updateVideo.  Returns the result, the event
trace, and the (unchanged) module state: the `videoThumbnails.set` call is
commented out in the source. -/
def handlerUploadThumbnail (env : UploadEnv) (st : ServerState) :
    (Except HandlerError Video × List Event) × ServerState :=
  match env.videoId with
  | none => ((.error (.badRequest "Invalid video ID"), []), st)
  | some videoId =>
    if videoId = "" then
      ((.error (.badRequest "Invalid video ID"), []), st)
    else
      match env.auth with
      | none => ((.error .authError, [.authResolve]), st)
      | some userID =>
        match env.formFile with
        | none =>
          ((.error (.badRequest "Thumbnail file missing"),
            [.authResolve, .formRead]), st)
        | some thumbnail =>
          if thumbnail.size > MAX_UPLOAD_SIZE then
            ((.error (.badRequest "Thumbnail file size is greater than 10MB"),
              [.authResolve, .formRead]), st)
          else if thumbnail.mediaType = "image/jpeg" ∨ thumbnail.mediaType = "image/png" then
            match env.db videoId with
            | none =>
              ((.error (.notFound "Couldn\x27t find video"),
                [.authResolve, .formRead, .dbLookup videoId]), st)
            | some video =>
              if video.userID = userID then
                let extension := jsSplitSecond thumbnail.mediaType
                let fileName := env.randomName ++ "." ++ extension
                let filePath := pathJoin env.cfg.assetsRoot fileName
                let url := "http://localhost:" ++ env.cfg.port ++ "/assets/" ++ fileName
                let updated := { video with thumbnailURL := some url }
                ((.ok updated,
                  [.authResolve, .formRead, .dbLookup videoId,
                   .localWriteStarted filePath, .recordUpdated updated]), st)
              else
                ((.error (.forbidden "Editing video not allowed."),
                  [.authResolve, .formRead, .dbLookup videoId]), st)
          else
            ((.error (.badRequest "Only JPEG and PNG files allowed!"),
              [.authResolve, .formRead]), st)

/-- Environment of one `handlerGetThumbnail` request. -/
structure GetEnv where
  cfg : ApiConfig
  videoId : Option String
  db : String → Option Video

/-- handlerGetThumbnail (thumbnails.ts, lines 19-41): videoId presence
check, db lookup with NotFound, then lookup in the in-memory
`videoThumbnails` map; on success the response body is the stored bytes
with the stored media type. -/
def handlerGetThumbnail (env : GetEnv) (st : ServerState) :
    Except HandlerError Thumbnail × List Event :=
  match env.videoId with
  | none => (.error (.badRequest "Invalid video ID"), [])
  | some videoId =>
    if videoId = "" then
      (.error (.badRequest "Invalid video ID"), [])
    else
      match env.db videoId with
      | none => (.error (.notFound "Couldn\x27t find video"), [.dbLookup videoId])
      | some _ =>
        match st.videoThumbnails videoId with
        | none => (.error (.notFound "Thumbnail not found"), [.dbLookup videoId])
        | some thumbnail => (.ok thumbnail, [.dbLookup videoId])

end Thumbnails

namespace Videos

/-- videos.ts: `const MAX_UPLOAD_SIZE = 1 << 30` (1 GiB). -/
def MAX_UPLOAD_SIZE : Nat := 2 ^ 30

/-- Outcome of the ffprobe subprocess in `getVideoAspectRatio`: a nonzero
exit with the captured stderr text, or the parsed `streams` array reduced
to each stream's (width, height) pair. -/
def ProbeOutcome : Type := Except String (List (Nat × Nat))

/-- getVideoAspectRatio (videos.ts, lines 81-121) applied to the ffprobe
outcome: a nonzero exit rethrows the stderr text; an empty `streams` array
throws "No video streams found"; otherwise the first stream's width and
height are classified by `width === Math.floor(16 * (height / 9))` and
`height === Math.floor(16 * (width / 9))`.  The JavaScript floor of the
double computation `16 * (h / 9)` equals the exact integer `16 * h / 9`
(Nat division) for every dimension below 2^49, which covers all stream
dimensions ffprobe can report, so the classification is modelled with
exact integer floor division. -/
def getVideoAspectRatio (probe : ProbeOutcome) : Except String String :=
  match probe with
  | .error err => .error err
  | .ok [] => .error "No video streams found"
  | .ok ((width, height) :: _) =>
    .ok (if width = 16 * height / 9 then "landscape"
         else if height = 16 * width / 9 then "portrait"
         else "other")

/-- Environment of one `handlerUploadVideo` request: route parameter, the
resolved auth outcome, database lookup, the form field "video" when it is
a File, the generated `randomBytes(32).toString("hex")` name, and the
outcomes of the four awaited external effects: the temp-file `Bun.write`,
the ffprobe run, the ffmpeg fast-start run (`processVideoForFastStart`),
and the remote `s3File.write`. -/
structure UploadEnv where
  cfg : ApiConfig
  videoId : Option String
  auth : Option String
  db : String → Option Video
  formFile : Option UploadedFile
  randomName : String
  tempWriteOk : Bool
  probe : ProbeOutcome
  transcode : Except String Unit
  s3WriteOk : Bool

/-- handlerUploadVideo (videos.ts, lines 21-79), step for step: videoId
presence check, auth, db lookup with NotFound, ownership, form read, file
presence, size ceiling, media-type whitelist, awaited temp-file write,
ffprobe classification, key derivation `category/name.extension`, ffmpeg
fast-start producing `filePath.processed`, awaited remote write, videoURL
assignment, updateVideo, and finally deletion of the processed temp file.
The original temp file at `filePath` is never deleted. -/
def handlerUploadVideo (env : UploadEnv) : Except HandlerError Video × List Event :=
  match env.videoId with
  | none => (.error (.badRequest "Invalid video ID"), [])
  | some videoId =>
    if videoId = "" then
      (.error (.badRequest "Invalid video ID"), [])
    else
      match env.auth with
      | none => (.error .authError, [.authResolve])
      | some userID =>
        match env.db videoId with
        | none =>
          (.error (.notFound "Couldn\x27t find video"), [.authResolve, .dbLookup videoId])
        | some video =>
          if video.userID = userID then
            match env.formFile with
            | none =>
              (.error (.badRequest "video file missing"),
               [.authResolve, .dbLookup videoId, .formRead])
            | some upload =>
              if upload.size > MAX_UPLOAD_SIZE then
                (.error (.badRequest "video file size is greater than 1GB"),
                 [.authResolve, .dbLookup videoId, .formRead])
              else if upload.mediaType = "video/mp4" then
                let extension := jsSplitSecond upload.mediaType
                let filePath := pathJoin env.cfg.assetsRoot (videoId ++ "." ++ extension)
                if env.tempWriteOk then
                  match getVideoAspectRatio env.probe with
                  | .error err =>
                    (.error (.internal err),
                     [.authResolve, .dbLookup videoId, .formRead,
                      .localWriteStarted filePath, .localWriteCompleted filePath,
                      .probeRun filePath])
                  | .ok category =>
                    let key := category ++ "/" ++ env.randomName ++ "." ++ extension
                    match env.transcode with
                    | .error err =>
                      (.error (.internal err),
                       [.authResolve, .dbLookup videoId, .formRead,
                        .localWriteStarted filePath, .localWriteCompleted filePath,
                        .probeRun filePath, .transcodeRun filePath])
                    | .ok _ =>
                      let processedPath := filePath ++ ".processed"
                      if env.s3WriteOk then
                        let updated :=
                          { video with videoURL := some (env.cfg.s3CfDistribution ++ "/" ++ key) }
                        (.ok updated,
                         [.authResolve, .dbLookup videoId, .formRead,
                          .localWriteStarted filePath, .localWriteCompleted filePath,
                          .probeRun filePath, .transcodeRun filePath,
                          .s3WriteStarted key, .s3WriteCompleted key,
                          .recordUpdated updated, .fileDeleted processedPath])
                      else
                        (.error (.internal "object store write failed"),
                         [.authResolve, .dbLookup videoId, .formRead,
                          .localWriteStarted filePath, .localWriteCompleted filePath,
                          .probeRun filePath, .transcodeRun filePath,
                          .s3WriteStarted key])
                else
                  (.error (.internal "temp file write failed"),
                   [.authResolve, .dbLookup videoId, .formRead,
                    .localWriteStarted filePath])
              else
                (.error (.badRequest "Only JPEG and PNG files allowed!"),
                 [.authResolve, .dbLookup videoId, .formRead])
          else
            (.error (.forbidden "Editing video not allowed."),
             [.authResolve, .dbLookup videoId])

end Videos

/-- True of storage-write events (local disk or remote object store). -/
def Event.isStorageWrite : Event → Bool
  | .localWriteStarted _ => true
  | .localWriteCompleted _ => true
  | .s3WriteStarted _ => true
  | .s3WriteCompleted _ => true
  | _ => false

/-- A trace performs no storage write of any kind. -/
def noStorageWrite (tr : List Event) : Prop :=
  ∀ e ∈ tr, e.isStorageWrite = false

/-- True of external-subprocess events (ffprobe, ffmpeg). -/
def Event.isExternalProc : Event → Bool
  | .probeRun _ => true
  | .transcodeRun _ => true
  | _ => false

/-- A trace invokes no external process. -/
def noExternalProcess (tr : List Event) : Prop :=
  ∀ e ∈ tr, e.isExternalProc = false

/-- True of record-mutation events. -/
def Event.isRecordUpdate : Event → Bool
  | .recordUpdated _ => true
  | _ => false

/-- A trace never mutates a video record. -/
def noRecordUpdate (tr : List Event) : Prop :=
  ∀ e ∈ tr, e.isRecordUpdate = false

/-- The thumbnail upload handler never changes the module state: the
`videoThumbnails.set` call is commented out in the source. -/
theorem thumb_state_unchanged (env : Thumbnails.UploadEnv) (st : ServerState) :
    (Thumbnails.handlerUploadThumbnail env st).2 = st := by
  unfold Thumbnails.handlerUploadThumbnail
  rcases env.videoId with _ | vid
  · rfl
  · dsimp only
    split
    · rfl
    · rcases env.auth with _ | u
      · rfl
      · dsimp only
        rcases env.formFile with _ | f
        · rfl
        · dsimp only
          split
          · rfl
          · split
            · rcases env.db vid with _ | v
              · rfl
              · dsimp only
                split <;> rfl
            · rfl

/-- Appending the ".processed" suffix always changes a string. -/
theorem append_processed_ne (s : String) : s ++ ".processed" ≠ s := by
  intro h
  have h2 := congrArg String.length h
  rw [String.length_append, show (".processed" : String).length = 10 from rfl] at h2
  omega

/-- Sample configuration used by the concrete evaluations below. -/
def cfg0 : ApiConfig := ⟨"8091", "secret", "assets", "https://cdn.example.com"⟩

/-- Sample stored video record owned by user "alice". -/
def video1 : Video := ⟨"v1", "alice", none, none⟩

/-- Sample database containing exactly `video1` under id "v1". -/
def db1 : String → Option Video := fun id => if id = "v1" then some video1 else none

/-- Fresh module state: the in-memory thumbnail map is empty, as it is at
process start (and forever after, since no active code path inserts). -/
def st0 : ServerState := ⟨fun _ => none⟩

/-- A small valid JPEG upload. -/
def jpegSmall : UploadedFile := ⟨3, "image/jpeg", [255, 216, 255]⟩

/-- A JPEG upload one byte over the 10 MiB thumbnail ceiling. -/
def jpegBig : UploadedFile := ⟨10 * 2 ^ 20 + 1, "image/jpeg", []⟩

/-- A small valid MP4 upload. -/
def mp4Small : UploadedFile := ⟨4, "video/mp4", [0, 0, 0, 24]⟩

/-- Thumbnail upload request whose fire-and-forget disk write eventually
fails (`diskWriteOk = false`); every gate passes. -/
def envC1 : Thumbnails.UploadEnv :=
  ⟨cfg0, some "v1", some "alice", some jpegSmall, db1, "tn", false⟩

/-- The record the C1 run persists. -/
def updatedC1 : Video :=
  { video1 with thumbnailURL := some "http://localhost:8091/assets/tn.jpeg" }

/-- C1: the claim says the URL field is persisted via updateVideo only if
the storage write has already completed successfully.  The thumbnail
handler does not await its `Bun.write`: here the disk write ultimately
fails, yet the run succeeds and its trace records the update after merely
starting the write, with no write-completion event of either kind. -/
theorem C1_record_update_unsequenced_write :
    envC1.diskWriteOk = false ∧
    (Thumbnails.handlerUploadThumbnail envC1 st0).1 =
      (.ok updatedC1,
       [.authResolve, .formRead, .dbLookup "v1",
        .localWriteStarted "assets/tn.jpeg", .recordUpdated updatedC1]) ∧
    (∀ p, Event.localWriteCompleted p ∉ ((Thumbnails.handlerUploadThumbnail envC1 st0).1).2) ∧
    (∀ p, Event.s3WriteCompleted p ∉ ((Thumbnails.handlerUploadThumbnail envC1 st0).1).2) := by
  have htr : ((Thumbnails.handlerUploadThumbnail envC1 st0).1).2 =
      [.authResolve, .formRead, .dbLookup "v1",
       .localWriteStarted "assets/tn.jpeg", .recordUpdated updatedC1] := by decide
  refine ⟨rfl, by decide, ?_, ?_⟩ <;> intro p hp <;> rw [htr] at hp <;> simp at hp

/-- Thumbnail upload request with every gate passing, for C2. -/
def envC2 : Thumbnails.UploadEnv :=
  ⟨cfg0, some "v1", some "alice", some jpegSmall, db1, "tn2", true⟩

/-- GET request for the same video id, for C2. -/
def genvC2 : Thumbnails.GetEnv := ⟨cfg0, some "v1", db1⟩

/-- The record the C2 upload persists. -/
def updatedC2 : Video :=
  { video1 with thumbnailURL := some "http://localhost:8091/assets/tn2.jpeg" }

/-- C2 counterexample: starting from the fresh module state, a valid JPEG
thumbnail upload for "v1" succeeds, yet the subsequent GET /thumbnails/v1
(with no intervening writes) does not succeed: it fails with NotFound,
because the active upload path stores the image on the filesystem and
never populates the in-memory map the GET handler serves from. -/
theorem C2_counterexample :
    ((Thumbnails.handlerUploadThumbnail envC2 st0).1).1 = .ok updatedC2 ∧
    (Thumbnails.handlerGetThumbnail genvC2
        (Thumbnails.handlerUploadThumbnail envC2 st0).2).1 =
      .error (.notFound "Thumbnail not found") :=
  ⟨by decide, by decide⟩

/-- C5: the aspect classification of `getVideoAspectRatio` on the first
stream's (width, height): landscape when width equals the floor of
16 * height / 9, else portrait when height equals the floor of
16 * width / 9, else other; and the three concrete classifications
1920x1080 landscape, 1080x1920 portrait, 1000x1000 other. -/
theorem C5_aspect_classification :
    (∀ (w h : Nat) (rest : List (Nat × Nat)), w = 16 * h / 9 →
        Videos.getVideoAspectRatio (.ok ((w, h) :: rest)) = .ok "landscape") ∧
    (∀ (w h : Nat) (rest : List (Nat × Nat)), w ≠ 16 * h / 9 → h = 16 * w / 9 →
        Videos.getVideoAspectRatio (.ok ((w, h) :: rest)) = .ok "portrait") ∧
    (∀ (w h : Nat) (rest : List (Nat × Nat)), w ≠ 16 * h / 9 → h ≠ 16 * w / 9 →
        Videos.getVideoAspectRatio (.ok ((w, h) :: rest)) = .ok "other") ∧
    Videos.getVideoAspectRatio (.ok [(1920, 1080)]) = .ok "landscape" ∧
    Videos.getVideoAspectRatio (.ok [(1080, 1920)]) = .ok "portrait" ∧
    Videos.getVideoAspectRatio (.ok [(1000, 1000)]) = .ok "other" := by
  refine ⟨?_, ?_, ?_, by decide, by decide, by decide⟩
  · intro w h rest hw
    subst hw
    simp [Videos.getVideoAspectRatio]
  · intro w h rest hw hh
    subst hh
    simp [Videos.getVideoAspectRatio, hw]
  · intro w h rest hw hh
    simp [Videos.getVideoAspectRatio, hw, hh]

/-- C5 witness: the general classification applied at 1280x720. -/
theorem C5_aspect_classification_witness :
    Videos.getVideoAspectRatio (.ok [(1280, 720)]) = .ok "landscape" :=
  C5_aspect_classification.1 1280 720 [] (by decide)

/-- Video upload request with no videoId path parameter, for C10. -/
def envC10 : Videos.UploadEnv :=
  ⟨cfg0, none, some "alice", db1, some mp4Small, "vk", true, .ok [(1920, 1080)], .ok (), true⟩

/-- C10: in all three handlers, an absent or empty videoId path parameter
fails with BadRequest and an empty trace: no authentication, no record
lookup, no other processing. -/
theorem C10_missing_video_id :
    (∀ (env : Thumbnails.UploadEnv) (st : ServerState),
        env.videoId = none ∨ env.videoId = some "" →
        (Thumbnails.handlerUploadThumbnail env st).1 =
          (.error (.badRequest "Invalid video ID"), [])) ∧
    (∀ (env : Thumbnails.GetEnv) (st : ServerState),
        env.videoId = none ∨ env.videoId = some "" →
        Thumbnails.handlerGetThumbnail env st =
          (.error (.badRequest "Invalid video ID"), [])) ∧
    (∀ (env : Videos.UploadEnv),
        env.videoId = none ∨ env.videoId = some "" →
        Videos.handlerUploadVideo env =
          (.error (.badRequest "Invalid video ID"), [])) := by
  refine ⟨?_, ?_, ?_⟩
  · intro env st h
    rcases h with h | h <;> simp [Thumbnails.handlerUploadThumbnail, h]
  · intro env st h
    rcases h with h | h <;> simp [Thumbnails.handlerGetThumbnail, h]
  · intro env h
    rcases h with h | h <;> simp [Videos.handlerUploadVideo, h]

/-- C10 witness: the video handler at a concrete request with no id. -/
theorem C10_missing_video_id_witness :
    Videos.handlerUploadVideo envC10 =
      (.error (.badRequest "Invalid video ID"), []) :=
  C10_missing_video_id.2.2 envC10 (Or.inl rfl)

/-- Whenever the submitted thumbnail exceeds the 10 MiB ceiling the run
errors and its trace contains no storage write, whatever the rest of the
environment. -/
theorem thumb_oversize_no_write (env : Thumbnails.UploadEnv) (st : ServerState)
    (f : UploadedFile) (hf : env.formFile = some f)
    (hs : f.size > Thumbnails.MAX_UPLOAD_SIZE) :
    (∃ e, ((Thumbnails.handlerUploadThumbnail env st).1).1 = .error e) ∧
      noStorageWrite ((Thumbnails.handlerUploadThumbnail env st).1).2 := by
  obtain ⟨cfg, vidOpt, authOpt, fileOpt, db, rname, dwo⟩ := env
  dsimp only at hf
  subst hf
  unfold Thumbnails.handlerUploadThumbnail
  dsimp only
  rcases vidOpt with _ | vid
  · exact ⟨⟨_, rfl⟩, by simp [noStorageWrite, Event.isStorageWrite]⟩
  · dsimp only
    split
    · exact ⟨⟨_, rfl⟩, by simp [noStorageWrite, Event.isStorageWrite]⟩
    · rcases authOpt with _ | u
      · exact ⟨⟨_, rfl⟩, by simp [noStorageWrite, Event.isStorageWrite]⟩
      · exact ⟨⟨_, rfl⟩, by simp [noStorageWrite, Event.isStorageWrite]⟩

/-- Whenever the submitted video exceeds the 1 GiB ceiling the run errors
and its trace contains no storage write, whatever the rest of the
environment. -/
theorem video_oversize_no_write (env : Videos.UploadEnv) (f : UploadedFile)
    (hf : env.formFile = some f) (hs : f.size > Videos.MAX_UPLOAD_SIZE) :
    (∃ e, (Videos.handlerUploadVideo env).1 = .error e) ∧
      noStorageWrite (Videos.handlerUploadVideo env).2 := by
  obtain ⟨cfg, vidOpt, authOpt, db, fileOpt, rname, two, pr, tc, s3⟩ := env
  dsimp only at hf
  subst hf
  unfold Videos.handlerUploadVideo
  dsimp only
  rcases vidOpt with _ | vid
  · exact ⟨⟨_, rfl⟩, by simp [noStorageWrite, Event.isStorageWrite]⟩
  · dsimp only
    split
    · exact ⟨⟨_, rfl⟩, by simp [noStorageWrite, Event.isStorageWrite]⟩
    · rcases authOpt with _ | u
      · exact ⟨⟨_, rfl⟩, by simp [noStorageWrite, Event.isStorageWrite]⟩
      · dsimp only
        rcases hdb : db vid with _ | video
        · exact ⟨⟨_, rfl⟩, by simp [noStorageWrite, Event.isStorageWrite]⟩
        · dsimp only
          split
          · exact ⟨⟨_, rfl⟩, by simp [noStorageWrite, Event.isStorageWrite]⟩
          · exact ⟨⟨_, rfl⟩, by simp [noStorageWrite, Event.isStorageWrite]⟩

/-- C6: an upload whose declared size exceeds the ceiling (10 MiB for
thumbnails, 1 GiB for videos) always errors with no storage write of any
kind, and when the earlier gates pass the rejection is precisely the
BadRequest of the size check, with the file read as the only activity
besides auth and (video path) the record lookup. -/
theorem C6_size_ceiling_rejected :
    (∀ (env : Thumbnails.UploadEnv) (st : ServerState) (f : UploadedFile),
        env.formFile = some f → f.size > Thumbnails.MAX_UPLOAD_SIZE →
        (∃ e, ((Thumbnails.handlerUploadThumbnail env st).1).1 = .error e) ∧
          noStorageWrite ((Thumbnails.handlerUploadThumbnail env st).1).2) ∧
    (∀ (env : Videos.UploadEnv) (f : UploadedFile),
        env.formFile = some f → f.size > Videos.MAX_UPLOAD_SIZE →
        (∃ e, (Videos.handlerUploadVideo env).1 = .error e) ∧
          noStorageWrite (Videos.handlerUploadVideo env).2) ∧
    (∀ (env : Thumbnails.UploadEnv) (st : ServerState) (vid u : String) (f : UploadedFile),
        env.videoId = some vid → vid ≠ "" → env.auth = some u →
        env.formFile = some f → f.size > Thumbnails.MAX_UPLOAD_SIZE →
        (Thumbnails.handlerUploadThumbnail env st).1 =
          (.error (.badRequest "Thumbnail file size is greater than 10MB"),
           [.authResolve, .formRead])) ∧
    (∀ (env : Videos.UploadEnv) (vid u : String) (video : Video) (f : UploadedFile),
        env.videoId = some vid → vid ≠ "" → env.auth = some u →
        env.db vid = some video → video.userID = u →
        env.formFile = some f → f.size > Videos.MAX_UPLOAD_SIZE →
        Videos.handlerUploadVideo env =
          (.error (.badRequest "video file size is greater than 1GB"),
           [.authResolve, .dbLookup vid, .formRead])) := by
  refine ⟨thumb_oversize_no_write, video_oversize_no_write, ?_, ?_⟩
  · intro env st vid u f hvid hne hauth hf hs
    obtain ⟨cfg, vidOpt, authOpt, fileOpt, db, rname, dwo⟩ := env
    dsimp only at hvid hauth hf
    subst hvid
    subst hauth
    subst hf
    unfold Thumbnails.handlerUploadThumbnail
    dsimp only
    rw [if_neg hne, if_pos hs]
  · intro env vid u video f hvid hne hauth hdb hown hf hs
    obtain ⟨cfg, vidOpt, authOpt, db, fileOpt, rname, two, pr, tc, s3⟩ := env
    dsimp only at hvid hauth hdb hf
    subst hvid
    subst hauth
    subst hf
    unfold Videos.handlerUploadVideo
    dsimp only
    rw [if_neg hne, hdb]
    dsimp only
    rw [if_pos hown, if_pos hs]

/-- Thumbnail upload request one byte over the ceiling, for the C6 witness. -/
def envC6 : Thumbnails.UploadEnv :=
  ⟨cfg0, some "v1", some "alice", some jpegBig, db1, "x6", true⟩

/-- C6 witness: the size gate fires on a concrete oversized thumbnail. -/
theorem C6_size_ceiling_rejected_witness :
    (Thumbnails.handlerUploadThumbnail envC6 st0).1 =
      (.error (.badRequest "Thumbnail file size is greater than 10MB"),
       [.authResolve, .formRead]) :=
  C6_size_ceiling_rejected.2.2.1 envC6 st0 "v1" "alice" jpegBig rfl
    (by decide) rfl rfl (by decide)

/-- Whenever the submitted thumbnail's media type is outside the jpeg/png
whitelist the run errors and its trace invokes no external process,
whatever the rest of the environment. -/
theorem thumb_badtype_rejected (env : Thumbnails.UploadEnv) (st : ServerState)
    (f : UploadedFile) (hf : env.formFile = some f)
    (ht : ¬ (f.mediaType = "image/jpeg" ∨ f.mediaType = "image/png")) :
    (∃ e, ((Thumbnails.handlerUploadThumbnail env st).1).1 = .error e) ∧
      noExternalProcess ((Thumbnails.handlerUploadThumbnail env st).1).2 := by
  obtain ⟨cfg, vidOpt, authOpt, fileOpt, db, rname, dwo⟩ := env
  dsimp only at hf
  subst hf
  unfold Thumbnails.handlerUploadThumbnail
  dsimp only
  rcases vidOpt with _ | vid
  · exact ⟨⟨_, rfl⟩, by simp [noExternalProcess]⟩
  · dsimp only
    split
    · exact ⟨⟨_, rfl⟩, by simp [noExternalProcess]⟩
    · rcases authOpt with _ | u
      · exact ⟨⟨_, rfl⟩, by simp [noExternalProcess, Event.isExternalProc]⟩
      · dsimp only
        split
        · exact ⟨⟨_, rfl⟩, by simp [noExternalProcess, Event.isExternalProc]⟩
        · exact ⟨⟨_, rfl⟩, by simp [noExternalProcess, Event.isExternalProc]⟩

/-- Whenever the submitted video's media type is not video/mp4 the run
errors and its trace invokes no external process (no ffprobe, no ffmpeg),
whatever the rest of the environment. -/
theorem video_badtype_rejected (env : Videos.UploadEnv) (f : UploadedFile)
    (hf : env.formFile = some f) (ht : f.mediaType ≠ "video/mp4") :
    (∃ e, (Videos.handlerUploadVideo env).1 = .error e) ∧
      noExternalProcess (Videos.handlerUploadVideo env).2 := by
  obtain ⟨cfg, vidOpt, authOpt, db, fileOpt, rname, two, pr, tc, s3⟩ := env
  dsimp only at hf
  subst hf
  unfold Videos.handlerUploadVideo
  dsimp only
  rcases vidOpt with _ | vid
  · exact ⟨⟨_, rfl⟩, by simp [noExternalProcess]⟩
  · dsimp only
    split
    · exact ⟨⟨_, rfl⟩, by simp [noExternalProcess]⟩
    · rcases authOpt with _ | u
      · exact ⟨⟨_, rfl⟩, by simp [noExternalProcess, Event.isExternalProc]⟩
      · dsimp only
        rcases hdb : db vid with _ | video
        · exact ⟨⟨_, rfl⟩, by simp [noExternalProcess, Event.isExternalProc]⟩
        · dsimp only
          split
          · split
            · exact ⟨⟨_, rfl⟩, by simp [noExternalProcess, Event.isExternalProc]⟩
            · exact ⟨⟨_, rfl⟩, by simp [noExternalProcess, Event.isExternalProc]⟩
          · exact ⟨⟨_, rfl⟩, by simp [noExternalProcess, Event.isExternalProc]⟩

/-- C7: an upload whose declared media type is outside the whitelist
(image/jpeg, image/png for thumbnails; video/mp4 for videos) always
errors with no external process invoked, and when the earlier gates pass
the rejection is precisely the BadRequest of the media-type check, still
with no external process invoked. -/
theorem C7_media_type_whitelist :
    (∀ (env : Videos.UploadEnv) (f : UploadedFile),
        env.formFile = some f → f.mediaType ≠ "video/mp4" →
        (∃ e, (Videos.handlerUploadVideo env).1 = .error e) ∧
          noExternalProcess (Videos.handlerUploadVideo env).2) ∧
    (∀ (env : Thumbnails.UploadEnv) (st : ServerState) (f : UploadedFile),
        env.formFile = some f →
        ¬ (f.mediaType = "image/jpeg" ∨ f.mediaType = "image/png") →
        (∃ e, ((Thumbnails.handlerUploadThumbnail env st).1).1 = .error e) ∧
          noExternalProcess ((Thumbnails.handlerUploadThumbnail env st).1).2) ∧
    (∀ (env : Videos.UploadEnv) (vid u : String) (video : Video) (f : UploadedFile),
        env.videoId = some vid → vid ≠ "" → env.auth = some u →
        env.db vid = some video → video.userID = u →
        env.formFile = some f → ¬ f.size > Videos.MAX_UPLOAD_SIZE →
        f.mediaType ≠ "video/mp4" →
        Videos.handlerUploadVideo env =
          (.error (.badRequest "Only JPEG and PNG files allowed!"),
           [.authResolve, .dbLookup vid, .formRead])) ∧
    (∀ (env : Thumbnails.UploadEnv) (st : ServerState) (vid u : String) (f : UploadedFile),
        env.videoId = some vid → vid ≠ "" → env.auth = some u →
        env.formFile = some f → ¬ f.size > Thumbnails.MAX_UPLOAD_SIZE →
        ¬ (f.mediaType = "image/jpeg" ∨ f.mediaType = "image/png") →
        (Thumbnails.handlerUploadThumbnail env st).1 =
          (.error (.badRequest "Only JPEG and PNG files allowed!"),
           [.authResolve, .formRead])) := by
  refine ⟨video_badtype_rejected, thumb_badtype_rejected, ?_, ?_⟩
  · intro env vid u video f hvid hne hauth hdb hown hf hsize ht
    obtain ⟨cfg, vidOpt, authOpt, db, fileOpt, rname, two, pr, tc, s3⟩ := env
    dsimp only at hvid hauth hdb hf
    subst hvid
    subst hauth
    subst hf
    unfold Videos.handlerUploadVideo
    dsimp only
    rw [if_neg hne, hdb]
    dsimp only
    rw [if_pos hown, if_neg hsize, if_neg ht]
  · intro env st vid u f hvid hne hauth hf hsize ht
    obtain ⟨cfg, vidOpt, authOpt, fileOpt, db, rname, dwo⟩ := env
    dsimp only at hvid hauth hf
    subst hvid
    subst hauth
    subst hf
    unfold Thumbnails.handlerUploadThumbnail
    dsimp only
    rw [if_neg hne, if_neg hsize, if_neg ht]

/-- A small WebM upload, outside the video whitelist. -/
def webmSmall : UploadedFile := ⟨5, "video/webm", [26, 69, 223, 163, 0]⟩

/-- Video upload request carrying a WebM file, for the C7 witness. -/
def envC7 : Videos.UploadEnv :=
  ⟨cfg0, some "v1", some "alice", db1, some webmSmall, "x7", true,
   .ok [(1920, 1080)], .ok (), true⟩

/-- C7 witness: the media-type gate fires on a concrete WebM video. -/
theorem C7_media_type_whitelist_witness :
    Videos.handlerUploadVideo envC7 =
      (.error (.badRequest "Only JPEG and PNG files allowed!"),
       [.authResolve, .dbLookup "v1", .formRead]) :=
  C7_media_type_whitelist.2.2.1 envC7 "v1" "alice" video1 webmSmall rfl
    (by decide) rfl (by decide) rfl rfl (by decide) (by decide)

/-- Thumbnail upload by non-owner "bob" with an oversized file, for C3. -/
def envC3 : Thumbnails.UploadEnv :=
  ⟨cfg0, some "v1", some "bob", some jpegBig, db1, "x3", true⟩

/-- C3 counterexample: the claim says every upload attempt by a non-owner
fails with Forbidden.  Here "bob" does not own "v1" (owned by "alice"),
yet the attempt is rejected with the BadRequest of the size gate, not
Forbidden, because the thumbnail pipeline validates the file before it
ever checks ownership. -/
theorem C3_counterexample :
    envC3.auth = some "bob" ∧ envC3.db "v1" = some video1 ∧
    video1.userID = "alice" ∧
    ((Thumbnails.handlerUploadThumbnail envC3 st0).1).1 =
      .error (.badRequest "Thumbnail file size is greater than 10MB") ∧
    ∀ m, ((Thumbnails.handlerUploadThumbnail envC3 st0).1).1 ≠
      .error (.forbidden m) := by
  refine ⟨rfl, by decide, rfl, by decide, ?_⟩
  intro m h
  rw [show ((Thumbnails.handlerUploadThumbnail envC3 st0).1).1 =
      .error (.badRequest "Thumbnail file size is greater than 10MB") from by decide] at h
  simp at h

/-- C3 amended: every upload attempt by a user who does not own the
record fails and never mutates any record (and performs no storage
write); the failure is Forbidden whenever the ownership check is reached:
always in the video pipeline, and in the thumbnail pipeline exactly when
the submitted file passes validation (otherwise the thumbnail pipeline
rejects it first with the BadRequest of the failing validation gate). -/
theorem C3_amended_ownership :
    (∀ (env : Thumbnails.UploadEnv) (st : ServerState) (vid userID : String) (video : Video),
        env.videoId = some vid → env.auth = some userID →
        env.db vid = some video → video.userID ≠ userID →
        (∃ e, ((Thumbnails.handlerUploadThumbnail env st).1).1 = .error e) ∧
          noRecordUpdate ((Thumbnails.handlerUploadThumbnail env st).1).2 ∧
          noStorageWrite ((Thumbnails.handlerUploadThumbnail env st).1).2) ∧
    (∀ (env : Videos.UploadEnv) (vid userID : String) (video : Video),
        env.videoId = some vid → vid ≠ "" → env.auth = some userID →
        env.db vid = some video → video.userID ≠ userID →
        Videos.handlerUploadVideo env =
          (.error (.forbidden "Editing video not allowed."),
           [.authResolve, .dbLookup vid]) ∧
          noRecordUpdate (Videos.handlerUploadVideo env).2) ∧
    (∀ (env : Thumbnails.UploadEnv) (st : ServerState) (vid userID : String)
        (video : Video) (f : UploadedFile),
        env.videoId = some vid → vid ≠ "" → env.auth = some userID →
        env.formFile = some f → ¬ f.size > Thumbnails.MAX_UPLOAD_SIZE →
        (f.mediaType = "image/jpeg" ∨ f.mediaType = "image/png") →
        env.db vid = some video → video.userID ≠ userID →
        (Thumbnails.handlerUploadThumbnail env st).1 =
          (.error (.forbidden "Editing video not allowed."),
           [.authResolve, .formRead, .dbLookup vid])) := by
  refine ⟨?_, ?_, ?_⟩
  · intro env st vid userID video hvid hauth hdb hne
    obtain ⟨cfg, vidOpt, authOpt, fileOpt, db, rname, dwo⟩ := env
    dsimp only at hvid hauth hdb
    subst hvid
    subst hauth
    unfold Thumbnails.handlerUploadThumbnail
    dsimp only
    split
    · exact ⟨⟨_, rfl⟩, by simp [noRecordUpdate], by simp [noStorageWrite]⟩
    · rcases fileOpt with _ | f
      · exact ⟨⟨_, rfl⟩,
          by simp [noRecordUpdate, Event.isRecordUpdate],
          by simp [noStorageWrite, Event.isStorageWrite]⟩
      · dsimp only
        split
        · exact ⟨⟨_, rfl⟩,
            by simp [noRecordUpdate, Event.isRecordUpdate],
            by simp [noStorageWrite, Event.isStorageWrite]⟩
        · split
          · rw [hdb]
            dsimp only
            rw [if_neg hne]
            exact ⟨⟨_, rfl⟩,
              by simp [noRecordUpdate, Event.isRecordUpdate],
              by simp [noStorageWrite, Event.isStorageWrite]⟩
          · exact ⟨⟨_, rfl⟩,
              by simp [noRecordUpdate, Event.isRecordUpdate],
              by simp [noStorageWrite, Event.isStorageWrite]⟩
  · intro env vid userID video hvid hvne hauth hdb hne
    obtain ⟨cfg, vidOpt, authOpt, db, fileOpt, rname, two, pr, tc, s3⟩ := env
    dsimp only at hvid hauth hdb
    subst hvid
    subst hauth
    unfold Videos.handlerUploadVideo
    dsimp only
    rw [if_neg hvne, hdb]
    dsimp only
    rw [if_neg hne]
    exact ⟨rfl, by simp [noRecordUpdate, Event.isRecordUpdate]⟩
  · intro env st vid userID video f hvid hvne hauth hf hsize htype hdb hne
    obtain ⟨cfg, vidOpt, authOpt, fileOpt, db, rname, dwo⟩ := env
    dsimp only at hvid hauth hf hdb
    subst hvid
    subst hauth
    subst hf
    unfold Thumbnails.handlerUploadThumbnail
    dsimp only
    rw [if_neg hvne, if_neg hsize, if_pos htype, hdb]
    dsimp only
    rw [if_neg hne]

/-- Video upload attempt by non-owner "bob", for the C3 witness. -/
def envC3v : Videos.UploadEnv :=
  ⟨cfg0, some "v1", some "bob", db1, some mp4Small, "x3v", true,
   .ok [(1920, 1080)], .ok (), true⟩

/-- C3 witness: the amended ownership property at a concrete non-owner
video upload: Forbidden, and no record mutation. -/
theorem C3_amended_ownership_witness :
    Videos.handlerUploadVideo envC3v =
      (.error (.forbidden "Editing video not allowed."),
       [.authResolve, .dbLookup "v1"]) ∧
      noRecordUpdate (Videos.handlerUploadVideo envC3v).2 :=
  C3_amended_ownership.2.1 envC3v "v1" "bob" video1 rfl (by decide) rfl
    (by decide) (by decide)

/-- C2 amended: uploading a valid JPEG thumbnail does not make a
subsequent GET /thumbnails/{v} return it.  The upload handler never
changes the in-memory videoThumbnails map the GET handler serves from
(the bytes go to the filesystem under a random name and that URL is
recorded instead); the GET handler returns content only when the map
already held it; hence after any successful upload on a server whose map
has no entry for v, the GET cannot return any content at all. -/
theorem C2_amended_roundtrip :
    (∀ (env : Thumbnails.UploadEnv) (st : ServerState),
        (Thumbnails.handlerUploadThumbnail env st).2 = st) ∧
    (∀ (genv : Thumbnails.GetEnv) (st : ServerState) (t : Thumbnail),
        (Thumbnails.handlerGetThumbnail genv st).1 = .ok t →
        ∃ vid, genv.videoId = some vid ∧ st.videoThumbnails vid = some t) ∧
    (∀ (env : Thumbnails.UploadEnv) (st : ServerState) (genv : Thumbnails.GetEnv)
        (vid : String) (v : Video) (t : Thumbnail),
        env.videoId = some vid → genv.videoId = some vid →
        st.videoThumbnails vid = none →
        ((Thumbnails.handlerUploadThumbnail env st).1).1 = .ok v →
        (Thumbnails.handlerGetThumbnail genv
            (Thumbnails.handlerUploadThumbnail env st).2).1 ≠ .ok t) := by
  have hget : ∀ (genv : Thumbnails.GetEnv) (st : ServerState) (t : Thumbnail),
      (Thumbnails.handlerGetThumbnail genv st).1 = .ok t →
      ∃ vid, genv.videoId = some vid ∧ st.videoThumbnails vid = some t := by
    intro genv st t h
    obtain ⟨cfg, vidOpt, db⟩ := genv
    unfold Thumbnails.handlerGetThumbnail at h
    rcases vidOpt with _ | vid
    · simp at h
    · dsimp only at h ⊢
      rw [if_neg (by intro hv; rw [if_pos hv] at h; simp at h)] at h
      rcases hdb : db vid with _ | video
      · rw [hdb] at h; simp at h
      · rw [hdb] at h
        dsimp only at h
        rcases hm : st.videoThumbnails vid with _ | t2
        · rw [hm] at h; simp at h
        · rw [hm] at h
          dsimp only at h
          cases h
          exact ⟨vid, rfl, hm⟩
  refine ⟨thumb_state_unchanged, hget, ?_⟩
  intro env st genv vid v t hvid hgvid hnone hok hget2
  obtain ⟨vid2, hvid2, hmap⟩ :=
    hget genv (Thumbnails.handlerUploadThumbnail env st).2 t hget2
  rw [thumb_state_unchanged] at hmap
  rw [hgvid] at hvid2
  cases hvid2
  rw [hnone] at hmap
  cases hmap

/-- A stored thumbnail entry, for the C2 witness. -/
def thumb1 : Thumbnail := ⟨[9, 9, 9], "image/png"⟩

/-- Module state whose map already holds `thumb1` for "v1". -/
def stC2 : ServerState := ⟨fun id => if id = "v1" then some thumb1 else none⟩

/-- GET request for "v1", for the C2 witness. -/
def genvC2w : Thumbnails.GetEnv := ⟨cfg0, some "v1", db1⟩

/-- C2 witness: the GET characterization applied at a concrete state in
which the map does hold an entry. -/
theorem C2_amended_roundtrip_witness :
    ∃ vid, genvC2w.videoId = some vid ∧
      stC2.videoThumbnails vid = some thumb1 :=
  C2_amended_roundtrip.2.1 genvC2w stC2 thumb1 (by decide)

/-- C9: a declared size exactly equal to the ceiling passes the size gate
(the comparison is strict greater-than): with every other gate satisfied,
a thumbnail of exactly 10 MiB and a video of exactly 1 GiB both reach a
successful result. -/
theorem C9_exact_ceiling_accepted :
    (∀ (env : Thumbnails.UploadEnv) (st : ServerState) (vid u : String)
        (video : Video) (f : UploadedFile),
        env.videoId = some vid → vid ≠ "" → env.auth = some u →
        env.formFile = some f → f.size = Thumbnails.MAX_UPLOAD_SIZE →
        (f.mediaType = "image/jpeg" ∨ f.mediaType = "image/png") →
        env.db vid = some video → video.userID = u →
        ∃ v, ((Thumbnails.handlerUploadThumbnail env st).1).1 = .ok v) ∧
    (∀ (env : Videos.UploadEnv) (vid u : String) (video : Video)
        (f : UploadedFile) (w h : Nat) (rest : List (Nat × Nat)),
        env.videoId = some vid → vid ≠ "" → env.auth = some u →
        env.db vid = some video → video.userID = u →
        env.formFile = some f → f.size = Videos.MAX_UPLOAD_SIZE →
        f.mediaType = "video/mp4" →
        env.tempWriteOk = true → env.probe = .ok ((w, h) :: rest) →
        env.transcode = .ok () → env.s3WriteOk = true →
        ∃ v, (Videos.handlerUploadVideo env).1 = .ok v) := by
  refine ⟨?_, ?_⟩
  · intro env st vid u video f hvid hne hauth hf hs htype hdb hown
    obtain ⟨cfg, vidOpt, authOpt, fileOpt, db, rname, dwo⟩ := env
    dsimp only at hvid hauth hf hdb
    subst hvid
    subst hauth
    subst hf
    have hsize : ¬ f.size > Thumbnails.MAX_UPLOAD_SIZE := by
      rw [hs]; exact Nat.lt_irrefl _
    unfold Thumbnails.handlerUploadThumbnail
    dsimp only
    rw [if_neg hne, if_neg hsize, if_pos htype, hdb]
    dsimp only
    rw [if_pos hown]
    exact ⟨_, rfl⟩
  · intro env vid u video f w h rest hvid hne hauth hdb hown hf hs htype htw hpr htc hs3
    obtain ⟨cfg, vidOpt, authOpt, db, fileOpt, rname, two, pr, tc, s3⟩ := env
    dsimp only at hvid hauth hdb hf htw hpr htc hs3
    subst hvid
    subst hauth
    subst hf
    subst htw
    subst hpr
    subst htc
    subst hs3
    have hsize : ¬ f.size > Videos.MAX_UPLOAD_SIZE := by
      rw [hs]; exact Nat.lt_irrefl _
    unfold Videos.handlerUploadVideo
    dsimp only
    rw [if_neg hne, hdb]
    dsimp only
    rw [if_pos hown, if_neg hsize, if_pos htype]
    simp only [Videos.getVideoAspectRatio]
    exact ⟨_, rfl⟩

/-- A thumbnail upload of exactly 10 MiB. -/
def jpegExact : UploadedFile := ⟨10 * 2 ^ 20, "image/jpeg", []⟩

/-- Thumbnail upload request at exactly the ceiling, for the C9 witness. -/
def envC9 : Thumbnails.UploadEnv :=
  ⟨cfg0, some "v1", some "alice", some jpegExact, db1, "x9", true⟩

/-- C9 witness: the exact-ceiling thumbnail upload succeeds. -/
theorem C9_exact_ceiling_accepted_witness :
    ∃ v, ((Thumbnails.handlerUploadThumbnail envC9 st0).1).1 = .ok v :=
  C9_exact_ceiling_accepted.1 envC9 st0 "v1" "alice" video1 jpegExact rfl
    (by decide) rfl rfl (by decide) (by decide) (by decide) (by decide)

/-- Thumbnail upload for a nonexistent record with an oversized file, for
the C4 counterexample. -/
def envC4 : Thumbnails.UploadEnv :=
  ⟨cfg0, some "missing", some "alice", some jpegBig, db1, "x4", true⟩

/-- C4 counterexample: the claim says the NotFound and Forbidden checks
precede any touching of the uploaded file in both pipelines.  Here the
record "missing" does not exist, yet the thumbnail handler reads the form
file and rejects on size with BadRequest: the trace shows the file read
with no record lookup at all, and the error is not NotFound. -/
theorem C4_counterexample :
    db1 "missing" = none ∧
    (Thumbnails.handlerUploadThumbnail envC4 st0).1 =
      (.error (.badRequest "Thumbnail file size is greater than 10MB"),
       [.authResolve, .formRead]) ∧
    Event.formRead ∈ ((Thumbnails.handlerUploadThumbnail envC4 st0).1).2 ∧
    ∀ id, Event.dbLookup id ∉ ((Thumbnails.handlerUploadThumbnail envC4 st0).1).2 := by
  refine ⟨by decide, by decide, by decide, ?_⟩
  intro id hid
  rw [show ((Thumbnails.handlerUploadThumbnail envC4 st0).1).2 =
      [.authResolve, .formRead] from by decide] at hid
  simp at hid

/-- C4 amended: the video pipeline touches the uploaded file only after
the NotFound and Forbidden checks passed, with the record lookup strictly
before the file read in the trace; the thumbnail pipeline is the other
way round: it performs the record lookup only after the file has been
read and has passed the size and media-type validation, with the file
read strictly before the lookup in the trace. -/
theorem C4_amended_check_order :
    (∀ (env : Videos.UploadEnv),
        Event.formRead ∈ (Videos.handlerUploadVideo env).2 →
        ∃ vid u video rest, env.videoId = some vid ∧ env.auth = some u ∧
          env.db vid = some video ∧ video.userID = u ∧
          (Videos.handlerUploadVideo env).2 =
            Event.authResolve :: Event.dbLookup vid :: Event.formRead :: rest) ∧
    (∀ (env : Thumbnails.UploadEnv) (st : ServerState) (vid : String),
        Event.dbLookup vid ∈ ((Thumbnails.handlerUploadThumbnail env st).1).2 →
        ∃ f rest, env.formFile = some f ∧
          ¬ f.size > Thumbnails.MAX_UPLOAD_SIZE ∧
          (f.mediaType = "image/jpeg" ∨ f.mediaType = "image/png") ∧
          ((Thumbnails.handlerUploadThumbnail env st).1).2 =
            Event.authResolve :: Event.formRead :: Event.dbLookup vid :: rest) := by
  refine ⟨?_, ?_⟩
  · intro env hmem
    obtain ⟨cfg, vidOpt, authOpt, db, fileOpt, rname, two, pr, tc, s3⟩ := env
    unfold Videos.handlerUploadVideo at hmem ⊢
    dsimp only at hmem ⊢
    rcases vidOpt with _ | vid
    · simp at hmem
    · dsimp only at hmem ⊢
      by_cases hvne : vid = ""
      · rw [if_pos hvne] at hmem
        simp at hmem
      · rw [if_neg hvne] at hmem ⊢
        rcases authOpt with _ | u
        · simp at hmem
        · dsimp only at hmem ⊢
          rcases hdb : db vid with _ | video
          · rw [hdb] at hmem
            simp at hmem
          · rw [hdb] at hmem
            try rw [hdb]
            try dsimp only at hmem ⊢
            by_cases hown : video.userID = u
            · rw [if_pos hown] at hmem ⊢
              rcases fileOpt with _ | f
              · exact ⟨vid, u, video, _, rfl, rfl, hdb, hown, rfl⟩
              · dsimp only at hmem ⊢
                by_cases hs : f.size > Videos.MAX_UPLOAD_SIZE
                · rw [if_pos hs] at hmem ⊢
                  exact ⟨vid, u, video, _, rfl, rfl, hdb, hown, rfl⟩
                · rw [if_neg hs] at hmem ⊢
                  by_cases ht : f.mediaType = "video/mp4"
                  · rw [if_pos ht] at hmem ⊢
                    try dsimp only at hmem ⊢
                    rcases two with _ | _
                    · exact ⟨vid, u, video, _, rfl, rfl, hdb, hown, rfl⟩
                    · rcases hgv : Videos.getVideoAspectRatio pr with err | cat
                      · exact ⟨vid, u, video, _, rfl, rfl, hdb, hown, rfl⟩
                      · try dsimp only at hmem ⊢
                        rcases tc with err | u2
                        · exact ⟨vid, u, video, _, rfl, rfl, hdb, hown, rfl⟩
                        · dsimp only at hmem ⊢
                          rcases s3 with _ | _
                          · exact ⟨vid, u, video, _, rfl, rfl, hdb, hown, rfl⟩
                          · exact ⟨vid, u, video, _, rfl, rfl, hdb, hown, rfl⟩
                  · rw [if_neg ht] at hmem ⊢
                    exact ⟨vid, u, video, _, rfl, rfl, hdb, hown, rfl⟩
            · rw [if_neg hown] at hmem
              simp at hmem
  · intro env st vid hmem
    obtain ⟨cfg, vidOpt, authOpt, fileOpt, db, rname, dwo⟩ := env
    unfold Thumbnails.handlerUploadThumbnail at hmem ⊢
    dsimp only at hmem ⊢
    rcases vidOpt with _ | vid2
    · simp at hmem
    · dsimp only at hmem ⊢
      by_cases hvne : vid2 = ""
      · rw [if_pos hvne] at hmem
        simp at hmem
      · rw [if_neg hvne] at hmem ⊢
        rcases authOpt with _ | u
        · simp at hmem
        · dsimp only at hmem ⊢
          rcases fileOpt with _ | f
          · simp at hmem
          · dsimp only at hmem ⊢
            by_cases hs : f.size > Thumbnails.MAX_UPLOAD_SIZE
            · rw [if_pos hs] at hmem
              simp at hmem
            · rw [if_neg hs] at hmem ⊢
              by_cases ht : f.mediaType = "image/jpeg" ∨ f.mediaType = "image/png"
              · rw [if_pos ht] at hmem ⊢
                rcases hdb : db vid2 with _ | video
                · rw [hdb] at hmem
                  simp at hmem
                  subst hmem
                  exact ⟨f, _, rfl, hs, ht, rfl⟩
                · rw [hdb] at hmem
                  try rw [hdb]
                  try dsimp only at hmem ⊢
                  by_cases hown : video.userID = u
                  · rw [if_pos hown] at hmem ⊢
                    simp at hmem
                    subst hmem
                    exact ⟨f, _, rfl, hs, ht, rfl⟩
                  · rw [if_neg hown] at hmem ⊢
                    simp at hmem
                    subst hmem
                    exact ⟨f, _, rfl, hs, ht, rfl⟩
              · rw [if_neg ht] at hmem
                simp at hmem

/-- Fully valid video upload request, for the C4 witness. -/
def envC4v : Videos.UploadEnv :=
  ⟨cfg0, some "v1", some "alice", db1, some mp4Small, "x4v", true,
   .ok [(1920, 1080)], .ok (), true⟩

/-- C4 witness: the video-pipeline ordering applied at a concrete run in
which the file is read. -/
theorem C4_amended_check_order_witness :
    ∃ vid u video rest, envC4v.videoId = some vid ∧ envC4v.auth = some u ∧
      envC4v.db vid = some video ∧ video.userID = u ∧
      (Videos.handlerUploadVideo envC4v).2 =
        Event.authResolve :: Event.dbLookup vid :: Event.formRead :: rest :=
  C4_amended_check_order.1 envC4v (by decide)

/-- Fully valid video upload request, for C8. -/
def envC8 : Videos.UploadEnv :=
  ⟨cfg0, some "v1", some "alice", db1, some mp4Small, "x8", true,
   .ok [(1920, 1080)], .ok (), true⟩

/-- The record the C8 run persists. -/
def updatedC8 : Video :=
  { video1 with videoURL := some "https://cdn.example.com/landscape/x8.mp4" }

/-- C8 counterexample: a fully successful video upload deletes only the
processed temporary file; the original temporary file it created at
assets/v1.mp4 is never deleted, contradicting the claim that the caller
cleans up both the original and the processed temporary files. -/
theorem C8_counterexample :
    (Videos.handlerUploadVideo envC8).1 = .ok updatedC8 ∧
    Event.localWriteStarted "assets/v1.mp4" ∈ (Videos.handlerUploadVideo envC8).2 ∧
    Event.fileDeleted "assets/v1.mp4.processed" ∈ (Videos.handlerUploadVideo envC8).2 ∧
    Event.fileDeleted "assets/v1.mp4" ∉ (Videos.handlerUploadVideo envC8).2 :=
  ⟨by decide, by decide, by decide, by decide⟩

/-- C8 amended: after a successful remote write the pipeline deletes the
local processed temporary file, and that deletion comes after both the
remote write and the record update; but the original temporary file the
pipeline created is never deleted — the only fileDeleted event in a
successful trace is for the .processed copy. -/
theorem C8_amended_cleanup :
    ∀ (env : Videos.UploadEnv) (v : Video),
      (Videos.handlerUploadVideo env).1 = .ok v →
      ∃ filePath key rest,
        (Videos.handlerUploadVideo env).2 =
          rest ++ [Event.s3WriteCompleted key, Event.recordUpdated v,
                   Event.fileDeleted (filePath ++ ".processed")] ∧
        Event.localWriteStarted filePath ∈ (Videos.handlerUploadVideo env).2 ∧
        (∀ p, Event.fileDeleted p ∈ (Videos.handlerUploadVideo env).2 →
           p = filePath ++ ".processed") ∧
        Event.fileDeleted filePath ∉ (Videos.handlerUploadVideo env).2 := by
  intro env v hok
  obtain ⟨cfg, vidOpt, authOpt, db, fileOpt, rname, two, pr, tc, s3⟩ := env
  unfold Videos.handlerUploadVideo at hok ⊢
  dsimp only at hok ⊢
  rcases vidOpt with _ | vid
  · simp at hok
  · dsimp only at hok ⊢
    by_cases hvne : vid = ""
    · rw [if_pos hvne] at hok
      simp at hok
    · rw [if_neg hvne] at hok ⊢
      rcases authOpt with _ | u
      · simp at hok
      · dsimp only at hok ⊢
        rcases hdb : db vid with _ | video
        · rw [hdb] at hok
          simp at hok
        · rw [hdb] at hok
          try rw [hdb]
          try dsimp only at hok ⊢
          by_cases hown : video.userID = u
          · rw [if_pos hown] at hok ⊢
            rcases fileOpt with _ | f
            · simp at hok
            · dsimp only at hok ⊢
              by_cases hs : f.size > Videos.MAX_UPLOAD_SIZE
              · rw [if_pos hs] at hok
                simp at hok
              · rw [if_neg hs] at hok ⊢
                by_cases ht : f.mediaType = "video/mp4"
                · rw [if_pos ht] at hok ⊢
                  try dsimp only at hok ⊢
                  rcases two with _ | _
                  · simp at hok
                  · rcases hgv : Videos.getVideoAspectRatio pr with err | cat
                    · rw [hgv] at hok
                      simp at hok
                    · rw [hgv] at hok
                      try rw [hgv]
                      try dsimp only at hok ⊢
                      rcases tc with err | u2
                      · simp at hok
                      · try dsimp only at hok ⊢
                        rcases s3 with _ | _
                        · simp at hok
                        · try dsimp only at hok
                          cases hok
                          refine ⟨pathJoin cfg.assetsRoot (vid ++ "." ++ jsSplitSecond f.mediaType),
                            cat ++ "/" ++ rname ++ "." ++ jsSplitSecond f.mediaType,
                            [Event.authResolve, Event.dbLookup vid, Event.formRead,
                             Event.localWriteStarted (pathJoin cfg.assetsRoot (vid ++ "." ++ jsSplitSecond f.mediaType)),
                             Event.localWriteCompleted (pathJoin cfg.assetsRoot (vid ++ "." ++ jsSplitSecond f.mediaType)),
                             Event.probeRun (pathJoin cfg.assetsRoot (vid ++ "." ++ jsSplitSecond f.mediaType)),
                             Event.transcodeRun (pathJoin cfg.assetsRoot (vid ++ "." ++ jsSplitSecond f.mediaType)),
                             Event.s3WriteStarted (cat ++ "/" ++ rname ++ "." ++ jsSplitSecond f.mediaType)],
                            rfl, by simp, ?_, ?_⟩
                          · intro p hp
                            simp at hp
                            exact hp
                          · intro hbad
                            simp at hbad
                            exact append_processed_ne _ hbad.symm
                · rw [if_neg ht] at hok
                  simp at hok
          · rw [if_neg hown] at hok
            simp at hok

/-- C8 witness: the cleanup property applied at the concrete successful
upload of `envC8`. -/
theorem C8_amended_cleanup_witness :
    ∃ filePath key rest,
      (Videos.handlerUploadVideo envC8).2 =
        rest ++ [Event.s3WriteCompleted key, Event.recordUpdated updatedC8,
                 Event.fileDeleted (filePath ++ ".processed")] ∧
      Event.localWriteStarted filePath ∈ (Videos.handlerUploadVideo envC8).2 ∧
      (∀ p, Event.fileDeleted p ∈ (Videos.handlerUploadVideo envC8).2 →
         p = filePath ++ ".processed") ∧
      Event.fileDeleted filePath ∉ (Videos.handlerUploadVideo envC8).2 :=
  C8_amended_cleanup envC8 updatedC8 (by decide)
